import Mathlib

/-!
Verification of the MAC Command Processing Engine of the lorawan-stack
network server, together with the redis device-store retry loop.

The repository snapshot contains the handler tests
(`pkg/networkserver/mac_rx_param_setup_test.go`, `TestHandleRekeyInd`) and the
redis store (`Store.Create` / `Store.Update` retry loops); the handler bodies
themselves (`handleRxParamSetupAns`, `handleRekeyInd`) and the pending-queue
helper are not part of the snapshot, so they are modelled from the
specification and checked against the behaviour the tests pin down.
-/

namespace LorawanStack

/-- MAC command-type discriminant (CID).  `RxParamSetupReq` and
`RxParamSetupAns` share the `rxParamSetup` CID; `RekeyInd` and `RekeyConf`
share the `rekey` CID. -/
inductive CID where
  | rxParamSetup
  | rekey
deriving DecidableEq, Repr

/-- Fields of `ttnpb.MACCommand_RxParamSetupReq`: the proposed Rx1 data-rate
offset, Rx2 data-rate index and Rx2 frequency. -/
structure RxParamSetupReq where
  rx1DataRateOffset : Nat
  rx2DataRateIndex : Nat
  rx2Frequency : Nat
deriving DecidableEq, Repr

/-- Fields of `ttnpb.MACCommand_RxParamSetupAns`: one acknowledgement flag per
proposed field. -/
structure RxParamSetupAns where
  rx1DataRateOffsetAck : Bool
  rx2DataRateIndexAck : Bool
  rx2FrequencyAck : Bool
deriving DecidableEq, Repr

/-- Fields of `ttnpb.MACCommand_RekeyInd`: the LoRaWAN minor version the
device declares. -/
structure RekeyInd where
  minorVersion : Nat
deriving DecidableEq, Repr

/-- Fields of `ttnpb.MACCommand_RekeyConf`. -/
structure RekeyConf where
  minorVersion : Nat
deriving DecidableEq, Repr

/-- `ttnpb.MACCommand`: tagged variant over the command catalogue (restricted
to the variants the specified handlers use). -/
inductive MACCommand where
  | rxParamSetupReq (req : RxParamSetupReq)
  | rxParamSetupAns (ans : RxParamSetupAns)
  | rekeyInd (ind : RekeyInd)
  | rekeyConf (conf : RekeyConf)
deriving DecidableEq, Repr

/-- The command-type discriminant of a `MACCommand` variant. -/
def MACCommand.cid : MACCommand → CID
  | .rxParamSetupReq _ => .rxParamSetup
  | .rxParamSetupAns _ => .rxParamSetup
  | .rekeyInd _ => .rekey
  | .rekeyConf _ => .rekey

/-- The subset of `ttnpb.MACParameters` governed by `RxParamSetupReq`. -/
structure MACParameters where
  rx1DataRateOffset : Nat
  rx2DataRateIndex : Nat
  rx2Frequency : Nat
deriving DecidableEq, Repr

/-- `ttnpb.MACState`: the per-session negotiated configuration, holding the
parameters currently in force and the ordered sequence of requests the server
sent and awaits answers for. -/
structure MACState where
  currentParameters : MACParameters
  pendingRequests : List MACCommand
deriving DecidableEq, Repr

/-- `ttnpb.EndDevice`, restricted to the fields the specified handlers touch:
the optional session state, the optional fallback session (modelled opaquely
by an identifier, as the handlers never look inside it) and the ordered queue
of commands awaiting downlink. -/
structure EndDevice where
  macState : Option MACState
  sessionFallback : Option Nat
  queuedMACCommands : List MACCommand
deriving DecidableEq, Repr

/-- Typed failures of the handler framework (spec section 7). -/
inductive HandlerError where
  | noPayload
  | missingPayload
  | requestNotFound
  | unsupportedCommand
deriving DecidableEq, Repr

/-- An emitted event: an immutable name/data pair, where data is the payload
that triggered it. -/
structure Event where
  name : String
  data : MACCommand
deriving DecidableEq, Repr

/-- Result of one handler invocation: the device record after the call (the
Go handlers mutate the record in place, so an erroring call hands back the
record it received), the returned error if any, and the events published
during the call. -/
structure HandlerResult where
  dev : EndDevice
  err : Option HandlerError
  events : List Event
deriving DecidableEq, Repr

def rxParamSetupAcceptEvent : String := "ns.mac.rx_param_setup.answer.accept"

def rxParamSetupRejectEvent : String := "ns.mac.rx_param_setup.answer.reject"

/-- Modelled from the spec: section 4.2 `take-matching`, the pending-queue
helper whose body is not in the snapshot.  Scans the sequence in order and
removes the first entry whose discriminant equals the requested command type,
keeping the rest in order; `none` when no entry matches. -/
def takeMatching (t : CID) : List MACCommand → Option (MACCommand × List MACCommand)
  | [] => none
  | c :: rest =>
    if c.cid = t then some (c, rest)
    else (takeMatching t rest).map fun p => (p.1, c :: p.2)

/-- Modelled from the spec: section 4.4 `handleRxParamSetupAns`, whose body is
not in the snapshot (only its test is).  A nil payload fails with `NoPayload`,
no mutation, no event.  Otherwise `accepted` is the conjunction of the three
acknowledgement flags; the handler matches the earliest pending
`RxParamSetupReq` via `take-matching`.  Not found: one accept/reject event is
emitted and the call fails with `RequestNotFound`, record unchanged.  Found:
the matched request is consumed; on acceptance its three proposed values
replace the corresponding `CurrentParameters` fields together, otherwise the
parameters stay untouched; one accept/reject event is emitted and the call
succeeds.  (A device without a `MACState` has no pending requests, hence takes
the not-found branch.) -/
def handleRxParamSetupAns (dev : EndDevice) (pld : Option RxParamSetupAns) :
    HandlerResult :=
  match pld with
  | none => ⟨dev, some .noPayload, []⟩
  | some p =>
    let accepted := p.rx1DataRateOffsetAck && p.rx2DataRateIndexAck && p.rx2FrequencyAck
    let ev : Event :=
      ⟨if accepted then rxParamSetupAcceptEvent else rxParamSetupRejectEvent,
       .rxParamSetupAns p⟩
    match dev.macState with
    | none => ⟨dev, some .requestNotFound, [ev]⟩
    | some ms =>
      match takeMatching .rxParamSetup ms.pendingRequests with
      | none => ⟨dev, some .requestNotFound, [ev]⟩
      | some (m, rest) =>
        let params :=
          if accepted then
            match m with
            | .rxParamSetupReq req =>
              { rx1DataRateOffset := req.rx1DataRateOffset
                rx2DataRateIndex := req.rx2DataRateIndex
                rx2Frequency := req.rx2Frequency }
            | _ => ms.currentParameters
          else ms.currentParameters
        ⟨{ dev with
            macState := some { currentParameters := params, pendingRequests := rest } },
         none, [ev]⟩

/-- Modelled from the spec: section 4.3 `handleRekeyInd`, whose body is not in
the snapshot (only its test is).  A nil payload fails with `MissingPayload`
and the record is unmodified.  Otherwise the fallback session is discarded and
a `RekeyConf` carrying the indicated minor version is appended to the tail of
`QueuedMACCommands`, unconditionally and without deduplication; the call
succeeds and no pending-request matching occurs. -/
def handleRekeyInd (dev : EndDevice) (pld : Option RekeyInd) : HandlerResult :=
  match pld with
  | none => ⟨dev, some .missingPayload, []⟩
  | some p =>
    ⟨{ dev with
        sessionFallback := none
        queuedMACCommands := dev.queuedMACCommands ++ [.rekeyConf ⟨p.minorVersion⟩] },
     none, []⟩

/-- `recursionLimit` of the redis store (`const recursionLimit = 10`). -/
def recursionLimit : Nat := 10

/-- Outcome of one `Redis.Watch` transaction attempt: success, the optimistic
write-conflict error `redis.TxFailedErr`, or any other error. -/
inductive RedisOutcome where
  | ok
  | txFailed
  | otherErr
deriving DecidableEq, Repr

/-- Shallow embedding of the retry loop of the redis store's `Store.Create`.
`outcomes` supplies the result of each successive `Redis.Watch` attempt.  The
Go code declares the recursion counter `var n int` but never increments it, so
every recursive `create()` call observes the same `n`; the embedding threads
`n` through unchanged to mirror that.  The loop recurses exactly when
`n != recursionLimit && err == redis.TxFailedErr`; `none` means the supplied
attempts were exhausted with the loop still recursing. -/
def createRetry (n : Nat) : List RedisOutcome → Option RedisOutcome
  | [] => none
  | r :: rest =>
    if n ≠ recursionLimit ∧ r = .txFailed then createRetry n rest else some r

/-- Shallow embedding of the retry loop of the redis store's `Store.Update`,
identical in structure to `createRetry`: the counter `n` is declared, never
incremented, and the loop recurses whenever the attempt returned
`redis.TxFailedErr` and `n != recursionLimit`. -/
def updateRetry (n : Nat) : List RedisOutcome → Option RedisOutcome
  | [] => none
  | r :: rest =>
    if n ≠ recursionLimit ∧ r = .txFailed then updateRetry n rest else some r

/-! Concrete records used by the witness theorems; they reproduce the
fixtures of the Go test cases. -/

/-- Device of the "all ack" / "data rate ack" test cases: parameters 99/0/99,
one pending `RxParamSetupReq{42, 43, 44}`. -/
def devPending : EndDevice :=
  { macState := some
      { currentParameters := ⟨99, 0, 99⟩
        pendingRequests := [.rxParamSetupReq ⟨42, 43, 44⟩] }
    sessionFallback := none
    queuedMACCommands := [] }

/-- Device of the "no request" test case: empty `MACState`. -/
def devNoReq : EndDevice :=
  { macState := some { currentParameters := ⟨0, 0, 0⟩, pendingRequests := [] }
    sessionFallback := none
    queuedMACCommands := [] }

/-- Device with no active session but a populated fallback and queue. -/
def devNoState : EndDevice :=
  { macState := none
    sessionFallback := some 5
    queuedMACCommands := [.rekeyConf ⟨42⟩] }

def ansAllTrue : RxParamSetupAns := ⟨true, true, true⟩

def ansTwoAcks : RxParamSetupAns := ⟨true, true, false⟩

/-- Pending queue with a non-matching head and two matching entries. -/
def pendingEx : List MACCommand :=
  [.rekeyConf ⟨7⟩, .rxParamSetupReq ⟨1, 2, 3⟩, .rxParamSetupReq ⟨4, 5, 6⟩]

/-- C7: invoking `handleRxParamSetupAns` with an absent payload returns the
`NoPayload` error, leaves the device record unchanged, and emits no event. -/
theorem rxParamSetupAns_nil_payload (dev : EndDevice) :
    handleRxParamSetupAns dev none = ⟨dev, some .noPayload, []⟩ := rfl

/-- C8: invoking `handleRekeyInd` with an absent payload returns the
`MissingPayload` error and leaves the device record unchanged. -/
theorem rekeyInd_nil_payload (dev : EndDevice) :
    handleRekeyInd dev none = ⟨dev, some .missingPayload, []⟩ := rfl

/-- C5: for every device and non-nil `RekeyInd` payload, `handleRekeyInd`
clears the fallback session, appends exactly one `RekeyConf` carrying the
indicated minor version at the tail of the queue — keeping every pre-existing
entry in place and in order, with no deduplication — and succeeds;
`MACState` (hence `PendingRequests`) is untouched. -/
theorem rekeyInd_clears_fallback_appends_conf (dev : EndDevice) (p : RekeyInd) :
    handleRekeyInd dev (some p) =
      ⟨{ dev with
          sessionFallback := none
          queuedMACCommands := dev.queuedMACCommands ++ [.rekeyConf ⟨p.minorVersion⟩] },
       none, []⟩ := rfl

/-- C10: `handleRekeyInd` does not require an active session: on a device
whose `MACState` is absent, a non-nil payload is still handled without error,
the fallback is cleared and the confirmation appended. -/
theorem rekeyInd_without_mac_state (dev : EndDevice) (p : RekeyInd)
    (hms : dev.macState = none) :
    handleRekeyInd dev (some p) =
      ⟨{ dev with
          sessionFallback := none
          queuedMACCommands := dev.queuedMACCommands ++ [.rekeyConf ⟨p.minorVersion⟩] },
       none, []⟩ := rfl

/-- Witness for C10 at a session-less device with a populated fallback and a
prior `RekeyConf` in the queue. -/
theorem rekeyInd_without_mac_state_concrete :
    handleRekeyInd devNoState (some ⟨1⟩) =
      ⟨⟨none, none, [.rekeyConf ⟨42⟩, .rekeyConf ⟨1⟩]⟩, none, []⟩ :=
  rekeyInd_without_mac_state devNoState ⟨1⟩ rfl

/-- C1: when the device's pending requests hold an `RxParamSetupReq` as the
earliest entry of that command type and the payload has all three
acknowledgement flags set, `handleRxParamSetupAns` copies the matched
request's three proposed values into `CurrentParameters` together, removes
the matched request, emits exactly one accept event carrying the payload,
and succeeds. -/
theorem rxParamSetupAns_full_ack_accepts
    (dev : EndDevice) (ms : MACState) (p : RxParamSetupAns)
    (req : RxParamSetupReq) (rest : List MACCommand)
    (hms : dev.macState = some ms)
    (hmatch : takeMatching .rxParamSetup ms.pendingRequests =
      some (.rxParamSetupReq req, rest))
    (h1 : p.rx1DataRateOffsetAck = true)
    (h2 : p.rx2DataRateIndexAck = true)
    (h3 : p.rx2FrequencyAck = true) :
    handleRxParamSetupAns dev (some p) =
      ⟨{ dev with
          macState := some ⟨⟨req.rx1DataRateOffset, req.rx2DataRateIndex, req.rx2Frequency⟩, rest⟩ },
       none,
       [⟨rxParamSetupAcceptEvent, .rxParamSetupAns p⟩]⟩ := by
  simp [handleRxParamSetupAns, hms, hmatch, h1, h2, h3]

/-- Witness for C1 at the fixture of the "all ack" test case: parameters go
from 99/0/99 to 42/43/44 and the pending queue empties. -/
theorem rxParamSetupAns_full_ack_accepts_concrete :
    handleRxParamSetupAns devPending (some ansAllTrue) =
      ⟨{ devPending with macState := some ⟨⟨42, 43, 44⟩, []⟩ },
       none, [⟨rxParamSetupAcceptEvent, .rxParamSetupAns ansAllTrue⟩]⟩ :=
  rxParamSetupAns_full_ack_accepts devPending
    ⟨⟨99, 0, 99⟩, [.rxParamSetupReq ⟨42, 43, 44⟩]⟩ ansAllTrue
    ⟨42, 43, 44⟩ [] rfl rfl rfl rfl rfl

/-- C2: when a pending entry of the `RxParamSetup` command type exists but at
least one acknowledgement flag is false, the matched request is still
consumed from the pending queue, `CurrentParameters` is left entirely
unchanged, exactly one reject event carrying the payload is emitted, and the
handler succeeds. -/
theorem rxParamSetupAns_nack_rejects
    (dev : EndDevice) (ms : MACState) (p : RxParamSetupAns)
    (m : MACCommand) (rest : List MACCommand)
    (hms : dev.macState = some ms)
    (hmatch : takeMatching .rxParamSetup ms.pendingRequests = some (m, rest))
    (hrej : (p.rx1DataRateOffsetAck && p.rx2DataRateIndexAck &&
      p.rx2FrequencyAck) = false) :
    handleRxParamSetupAns dev (some p) =
      ⟨{ dev with macState := some { ms with pendingRequests := rest } },
       none, [⟨rxParamSetupRejectEvent, .rxParamSetupAns p⟩]⟩ := by
  simp [handleRxParamSetupAns, hms, hmatch, hrej]

/-- Witness for C2 at the fixture of the "data rate ack" test case: two of
three flags true, parameters stay 99/0/99, the pending queue empties. -/
theorem rxParamSetupAns_nack_rejects_concrete :
    handleRxParamSetupAns devPending (some ansTwoAcks) =
      ⟨{ devPending with macState := some ⟨⟨99, 0, 99⟩, []⟩ },
       none, [⟨rxParamSetupRejectEvent, .rxParamSetupAns ansTwoAcks⟩]⟩ :=
  rxParamSetupAns_nack_rejects devPending
    ⟨⟨99, 0, 99⟩, [.rxParamSetupReq ⟨42, 43, 44⟩]⟩ ansTwoAcks
    (.rxParamSetupReq ⟨42, 43, 44⟩) [] rfl rfl rfl

/-- C3: when no pending entry of the `RxParamSetup` command type exists, the
handler emits exactly one event — accept if all three flags are true, reject
otherwise — carrying the payload, returns the `RequestNotFound` error, and
leaves the device record (parameters and both queues) unchanged. -/
theorem rxParamSetupAns_not_found
    (dev : EndDevice) (ms : MACState) (p : RxParamSetupAns)
    (hms : dev.macState = some ms)
    (hnone : takeMatching .rxParamSetup ms.pendingRequests = none) :
    handleRxParamSetupAns dev (some p) =
      ⟨dev, some .requestNotFound,
       [⟨if p.rx1DataRateOffsetAck && p.rx2DataRateIndexAck && p.rx2FrequencyAck
           then rxParamSetupAcceptEvent else rxParamSetupRejectEvent,
         .rxParamSetupAns p⟩]⟩ := by
  simp [handleRxParamSetupAns, hms, hnone]

/-- Witness for C3 at the fixture of the "no request" test case: all-true
flags, device unchanged, `RequestNotFound`, one accept event. -/
theorem rxParamSetupAns_not_found_concrete :
    handleRxParamSetupAns devNoReq (some ansAllTrue) =
      ⟨devNoReq, some .requestNotFound,
       [⟨rxParamSetupAcceptEvent, .rxParamSetupAns ansAllTrue⟩]⟩ :=
  rxParamSetupAns_not_found devNoReq
    ⟨⟨0, 0, 0⟩, []⟩ ansAllTrue rfl rfl

/-- C6: `take-matching` removes at most one entry — the earliest whose
discriminant equals the requested command type — returning it and keeping
every other entry in its original relative order (the remainder is the
prefix before the match followed by the suffix after it, with no entry of
that type in the prefix); when no entry has that discriminant it reports
not-found and the sequence is unchanged. -/
theorem takeMatching_removes_first_match (t : CID) (l : List MACCommand) :
    (∀ m rest, takeMatching t l = some (m, rest) →
        m.cid = t ∧ ∃ pre post, l = pre ++ m :: post ∧ rest = pre ++ post ∧
          ∀ x ∈ pre, x.cid ≠ t) ∧
    (takeMatching t l = none → ∀ x ∈ l, x.cid ≠ t) := by
  induction l with
  | nil => simp [takeMatching]
  | cons c cs ih =>
    constructor
    · intro m rest h
      by_cases hc : c.cid = t
      · rw [takeMatching, if_pos hc] at h
        obtain ⟨rfl, rfl⟩ := Prod.mk.injEq .. ▸ Option.some.inj h
        exact ⟨hc, [], cs, rfl, rfl, by simp⟩
      · rw [takeMatching, if_neg hc] at h
        cases htc : takeMatching t cs with
        | none => rw [htc] at h; exact absurd h (by simp)
        | some pr =>
          obtain ⟨m', r'⟩ := pr
          rw [htc] at h
          obtain ⟨rfl, rfl⟩ := Prod.mk.injEq .. ▸ Option.some.inj h
          obtain ⟨hcid, pre, post, hl, hr, hpre⟩ := ih.1 m' r' htc
          refine ⟨hcid, c :: pre, post, by simp [hl], by simp [hr], ?_⟩
          intro x hx
          rcases List.mem_cons.mp hx with hx | hx
          · exact hx ▸ hc
          · exact hpre x hx
    · intro h x hx
      rw [takeMatching] at h
      by_cases hc : c.cid = t
      · rw [if_pos hc] at h; exact absurd h (by simp)
      · rw [if_neg hc] at h
        rcases List.mem_cons.mp hx with hx | hx
        · exact hx ▸ hc
        · exact ih.2 (Option.map_eq_none.mp h) x hx

/-- Witness for C6: on a queue whose head has a different discriminant,
`take-matching` for `rxParamSetup` returns the middle entry, keeps the head
and tail in order, and the skipped prefix has no matching entry. -/
theorem takeMatching_removes_first_match_concrete :
    (MACCommand.rxParamSetupReq ⟨1, 2, 3⟩).cid = CID.rxParamSetup ∧
      ∃ pre post,
        pendingEx = pre ++ MACCommand.rxParamSetupReq ⟨1, 2, 3⟩ :: post ∧
        [MACCommand.rekeyConf ⟨7⟩, MACCommand.rxParamSetupReq ⟨4, 5, 6⟩] =
          pre ++ post ∧
        ∀ x ∈ pre, x.cid ≠ CID.rxParamSetup :=
  (takeMatching_removes_first_match CID.rxParamSetup pendingEx).1
    (.rxParamSetupReq ⟨1, 2, 3⟩)
    [.rekeyConf ⟨7⟩, .rxParamSetupReq ⟨4, 5, 6⟩] rfl

/-- C4: each specified handler either returns an error and hands back the
device record exactly as received (parameters and both queues unchanged), or
succeeds; and each handler is a deterministic function of the prior state and
the payload, so two runs from equal states with equal payloads produce equal
results. -/
theorem handlers_error_unchanged_and_deterministic :
    (∀ dev pld e, (handleRxParamSetupAns dev pld).err = some e →
        (handleRxParamSetupAns dev pld).dev = dev) ∧
    (∀ dev pld e, (handleRekeyInd dev pld).err = some e →
        (handleRekeyInd dev pld).dev = dev) ∧
    (∀ d₁ d₂ p₁ p₂, d₁ = d₂ → p₁ = p₂ →
        handleRxParamSetupAns d₁ p₁ = handleRxParamSetupAns d₂ p₂) ∧
    (∀ d₁ d₂ p₁ p₂, d₁ = d₂ → p₁ = p₂ →
        handleRekeyInd d₁ p₁ = handleRekeyInd d₂ p₂) := by
  refine ⟨?_, ?_, ?_, ?_⟩
  · intro dev pld e h
    match pld with
    | none => rfl
    | some p =>
      cases hms : dev.macState with
      | none => simp [handleRxParamSetupAns, hms]
      | some ms =>
        cases htc : takeMatching .rxParamSetup ms.pendingRequests with
        | none => simp [handleRxParamSetupAns, hms, htc]
        | some pr =>
          obtain ⟨m, rest⟩ := pr
          simp [handleRxParamSetupAns, hms, htc] at h
  · intro dev pld e h
    match pld with
    | none => rfl
    | some p => simp [handleRekeyInd] at h
  · intro d₁ d₂ p₁ p₂ hd hp
    rw [hd, hp]
  · intro d₁ d₂ p₁ p₂ hd hp
    rw [hd, hp]

/-- Witness for C4: the erroring nil-payload invocation on the test fixture
hands back the record unchanged. -/
theorem handlers_error_unchanged_and_deterministic_concrete :
    (handleRxParamSetupAns devNoReq none).dev = devNoReq :=
  handlers_error_unchanged_and_deterministic.1 devNoReq none .noPayload rfl

/-- C9 fails on the code: the redis store's retry loops declare the counter
`n` against `recursionLimit = 10` but never increment it, so on a persistent
write conflict `Store.Create` and `Store.Update` keep recursing after any
number of `TxFailedErr` attempts — the loop is unbounded, never returning the
conflict error. -/
theorem storeRetry_unbounded_on_persistent_conflict (k : Nat) :
    createRetry 0 (List.replicate k .txFailed) = none ∧
    updateRetry 0 (List.replicate k .txFailed) = none := by
  induction k with
  | zero => exact ⟨rfl, rfl⟩
  | succ k ih =>
    simpa [createRetry, updateRetry, List.replicate_succ, recursionLimit] using ih

end LorawanStack
